import Mathlib

/-!
Verification of the airfoil curve generator and STL mesh emitter
(`OpenFOAM/airfoil/naca0018_generator.py`).

The Python floats are modelled as real numbers; `numpy` vectorised
arithmetic is modelled pointwise, with the coordinate arrays as
`List ℝ` built by `List.ofFn`.  The STL writer is modelled as a
function producing the list of lines of the output document; the
`:.6f` float format is modelled by `fmt6` (decimal fixed-point with
six fractional digits, rounding half away handled by `round`), and
the literal `0.0` the source writes for the z = 0 coordinate is kept
as a literal string, exactly as in the source.
-/

namespace Naca

open Real

/-- The parameter record passed for one airfoil
(`generate_bent_airfoil_coordinates` keyword arguments /
one entry of the `airfoils` list in `write_airfoils_to_stl`). -/
structure AirfoilParameters where
  n_points : ℕ
  chord_length : ℝ
  x_offset : ℝ
  y_offset : ℝ
  angle_of_attack : ℝ
  bend_factor : ℝ
  thickness_front : ℝ
  thickness_end : ℝ

/-- `np.linspace(a, b, n)` evaluated at index `i`: for `n ≠ 1` the value
`a + i·(b−a)/(n−1)`; `np.linspace(a, b, 1)` is the single value `a`. -/
noncomputable def linspaceF (a b : ℝ) (n : ℕ) (i : ℕ) : ℝ :=
  if n = 1 then a else a + i * ((b - a) / ((n - 1 : ℕ) : ℝ))

/-- `beta = np.linspace(0, np.pi, n_points)` at index `i`. -/
noncomputable def betaF (p : AirfoilParameters) (i : ℕ) : ℝ :=
  linspaceF 0 Real.pi p.n_points i

/-- `x = 0.5 * chord_length * (1 - np.cos(beta))` at index `i`. -/
noncomputable def xF (p : AirfoilParameters) (i : ℕ) : ℝ :=
  0.5 * p.chord_length * (1 - Real.cos (betaF p i))

/-- `thickness_taper = thickness_front * (1 - x/chord) + thickness_end * (x/chord)`. -/
noncomputable def thicknessTaperF (p : AirfoilParameters) (i : ℕ) : ℝ :=
  p.thickness_front * (1 - xF p i / p.chord_length)
    + p.thickness_end * (xF p i / p.chord_length)

/-- `y_t = 5 * thickness_taper * chord_length * (0.2969*sqrt(x/c) - 0.1260*(x/c)
- 0.3516*(x/c)**2 + 0.2843*(x/c)**3 - 0.1015*(x/c)**4)`. -/
noncomputable def ytF (p : AirfoilParameters) (i : ℕ) : ℝ :=
  5 * thicknessTaperF p i * p.chord_length *
    (0.2969 * Real.sqrt (xF p i / p.chord_length)
      - 0.1260 * (xF p i / p.chord_length)
      - 0.3516 * (xF p i / p.chord_length) ^ 2
      + 0.2843 * (xF p i / p.chord_length) ^ 3
      - 0.1015 * (xF p i / p.chord_length) ^ 4)

/-- `camber_y = bend_factor * (x/chord) * (1 - x/chord)`. -/
noncomputable def camberF (p : AirfoilParameters) (i : ℕ) : ℝ :=
  p.bend_factor * (xF p i / p.chord_length) * (1 - xF p i / p.chord_length)

/-- `x_upper = x`. -/
noncomputable def xUpperF (p : AirfoilParameters) (i : ℕ) : ℝ := xF p i

/-- `y_upper = y_t + camber_y`. -/
noncomputable def yUpperF (p : AirfoilParameters) (i : ℕ) : ℝ := ytF p i + camberF p i

/-- `x_lower = x`. -/
noncomputable def xLowerF (p : AirfoilParameters) (i : ℕ) : ℝ := xF p i

/-- `y_lower = -y_t + camber_y`. -/
noncomputable def yLowerF (p : AirfoilParameters) (i : ℕ) : ℝ := -ytF p i + camberF p i

/-- `alpha = math.radians(angle_of_attack)`. -/
noncomputable def alphaOf (p : AirfoilParameters) : ℝ :=
  p.angle_of_attack * (Real.pi / 180)

/-- `x_upper_rot = x_upper * cos_alpha - y_upper * sin_alpha + x_offset`. -/
noncomputable def xUpperRotF (p : AirfoilParameters) (i : ℕ) : ℝ :=
  xUpperF p i * Real.cos (alphaOf p) - yUpperF p i * Real.sin (alphaOf p) + p.x_offset

/-- `y_upper_rot = x_upper * sin_alpha + y_upper * cos_alpha + y_offset`. -/
noncomputable def yUpperRotF (p : AirfoilParameters) (i : ℕ) : ℝ :=
  xUpperF p i * Real.sin (alphaOf p) + yUpperF p i * Real.cos (alphaOf p) + p.y_offset

/-- `x_lower_rot = x_lower * cos_alpha - y_lower * sin_alpha + x_offset`. -/
noncomputable def xLowerRotF (p : AirfoilParameters) (i : ℕ) : ℝ :=
  xLowerF p i * Real.cos (alphaOf p) - yLowerF p i * Real.sin (alphaOf p) + p.x_offset

/-- `y_lower_rot = x_lower * sin_alpha + y_lower * cos_alpha + y_offset`. -/
noncomputable def yLowerRotF (p : AirfoilParameters) (i : ℕ) : ℝ :=
  xLowerF p i * Real.sin (alphaOf p) + yLowerF p i * Real.cos (alphaOf p) + p.y_offset

/-- `generate_bent_airfoil_coordinates`: the four returned arrays
`(x_upper_rot, y_upper_rot, x_lower_rot, y_lower_rot)`, each of
length `n_points`. -/
noncomputable def generate_bent_airfoil_coordinates (p : AirfoilParameters) :
    List ℝ × List ℝ × List ℝ × List ℝ :=
  (List.ofFn (fun i : Fin p.n_points => xUpperRotF p i),
   List.ofFn (fun i : Fin p.n_points => yUpperRotF p i),
   List.ofFn (fun i : Fin p.n_points => xLowerRotF p i),
   List.ofFn (fun i : Fin p.n_points => yLowerRotF p i))

/-- The z slot of a vertex line of the STL writer is syntactically either
the literal `0.0` or the formatted `span`; this tag records which. -/
inductive ZCoord where
  | z0 : ZCoord
  | zspan : ZCoord
deriving DecidableEq

/-- The real z value a `ZCoord` denotes, given the span. -/
def ZCoord.toReal (span : ℝ) : ZCoord → ℝ
  | .z0 => 0
  | .zspan => span

/-- The facet normal written by the STL writer: the source emits only the
two literal normals `0.0 0.0 1.0` and `0.0 0.0 -1.0`. -/
inductive FacetNormal where
  | posZ : FacetNormal
  | negZ : FacetNormal
deriving DecidableEq

/-- The (nx, ny, nz) triple a `FacetNormal` denotes. -/
def FacetNormal.vec : FacetNormal → ℝ × ℝ × ℝ
  | .posZ => (0, 0, 1)
  | .negZ => (0, 0, -1)

/-- The literal text of a facet-normal line. -/
def FacetNormal.str : FacetNormal → String
  | .posZ => "0.0 0.0 1.0"
  | .negZ => "0.0 0.0 -1.0"

/-- One vertex of an emitted STL triangle: real x and y, and the z tag. -/
structure Vtx where
  x : ℝ
  y : ℝ
  z : ZCoord

/-- One emitted STL facet: its normal and its three vertices in the
order they are written. -/
structure Tri where
  normal : FacetNormal
  a : Vtx
  b : Vtx
  c : Vtx

/-- Upper-surface shell triangles: for each `i` in `range(n-1)`, the two
facets with normal `0.0 0.0 1.0` written by the first loop of
`write_airfoils_to_stl` (`n = len(x_upper)`). -/
def topShellTris (n : ℕ) (xu yu : List ℝ) : List Tri :=
  (List.range (n - 1)).flatMap fun i =>
    [⟨.posZ, ⟨xu.getD i 0, yu.getD i 0, .z0⟩,
             ⟨xu.getD (i+1) 0, yu.getD (i+1) 0, .z0⟩,
             ⟨xu.getD i 0, yu.getD i 0, .zspan⟩⟩,
     ⟨.posZ, ⟨xu.getD (i+1) 0, yu.getD (i+1) 0, .z0⟩,
             ⟨xu.getD (i+1) 0, yu.getD (i+1) 0, .zspan⟩,
             ⟨xu.getD i 0, yu.getD i 0, .zspan⟩⟩]

/-- Lower-surface shell triangles: for each `i` in `range(n-1)`, the two
facets with normal `0.0 0.0 -1.0` written by the second loop. -/
def bottomShellTris (n : ℕ) (xl yl : List ℝ) : List Tri :=
  (List.range (n - 1)).flatMap fun i =>
    [⟨.negZ, ⟨xl.getD i 0, yl.getD i 0, .z0⟩,
             ⟨xl.getD i 0, yl.getD i 0, .zspan⟩,
             ⟨xl.getD (i+1) 0, yl.getD (i+1) 0, .z0⟩⟩,
     ⟨.negZ, ⟨xl.getD (i+1) 0, yl.getD (i+1) 0, .z0⟩,
             ⟨xl.getD i 0, yl.getD i 0, .zspan⟩,
             ⟨xl.getD (i+1) 0, yl.getD (i+1) 0, .zspan⟩⟩]

/-- Front-cap triangles at z = 0: for each `i` in `range(n-1)` with
`i < n // 2`, one facet with normal `0.0 0.0 -1.0`. -/
def frontCapTris (n : ℕ) (xu yu xl yl : List ℝ) : List Tri :=
  (List.range (n - 1)).flatMap fun i =>
    if i < n / 2 then
      [⟨.negZ, ⟨xu.getD i 0, yu.getD i 0, .z0⟩,
               ⟨xl.getD (n-1-i) 0, yl.getD (n-1-i) 0, .z0⟩,
               ⟨xu.getD (i+1) 0, yu.getD (i+1) 0, .z0⟩⟩]
    else []

/-- Back-cap triangles at z = span: for each `i` in `range(n-1)` with
`i < n // 2`, one facet with normal `0.0 0.0 1.0`. -/
def backCapTris (n : ℕ) (xu yu xl yl : List ℝ) : List Tri :=
  (List.range (n - 1)).flatMap fun i =>
    if i < n / 2 then
      [⟨.posZ, ⟨xu.getD i 0, yu.getD i 0, .zspan⟩,
               ⟨xu.getD (i+1) 0, yu.getD (i+1) 0, .zspan⟩,
               ⟨xl.getD (n-1-i) 0, yl.getD (n-1-i) 0, .zspan⟩⟩]
    else []

/-- All facets `write_airfoils_to_stl` emits for one shape, in the order
written: top shell, bottom shell, front cap, back cap
(`n = len(x_upper)`). -/
def shapeTris (xu yu xl yl : List ℝ) : List Tri :=
  topShellTris xu.length xu yu ++ bottomShellTris xu.length xl yl
    ++ frontCapTris xu.length xu yu xl yl ++ backCapTris xu.length xu yu xl yl

/-- One line of the output document. -/
inductive SLine where
  | solidTag (name : String)
  | facetTag (normal : String)
  | loopTag
  | vertexTag (sx sy sz : String)
  | endloopTag
  | endfacetTag
  | endsolidTag (name : String)
deriving DecidableEq

/-- Whether a line is a `facet normal ...` line. -/
def SLine.isFacetTag : SLine → Bool
  | .facetTag _ => true
  | _ => false

/-- Whether a line is an `endfacet` line. -/
def SLine.isEndfacetTag : SLine → Bool
  | .endfacetTag => true
  | _ => false

/-- Whether a line is an `outer loop` line. -/
def SLine.isLoopTag : SLine → Bool
  | .loopTag => true
  | _ => false

/-- Whether a line is an `endloop` line. -/
def SLine.isEndloopTag : SLine → Bool
  | .endloopTag => true
  | _ => false

/-- Fixed-point rendering of a scaled value: `natFixed6 m` is the decimal
string for `m / 10^6` with exactly six fractional digits. -/
def natFixed6 (m : ℕ) : String :=
  let frac := toString (m % 1000000)
  toString (m / 1000000) ++ "." ++
    String.mk (List.replicate (6 - frac.length) '0') ++ frac

/-- Python's `f"{x:.6f}"` on a real value: sign, then the magnitude scaled
by `10^6`, rounded to an integer and rendered in fixed point. -/
noncomputable def fmt6 (x : ℝ) : String :=
  (if x < 0 then "-" else "") ++ natFixed6 (round (|x| * 10 ^ 6)).toNat

/-- The string written in a vertex line's z slot: the source writes the
literal `0.0` at z = 0 and `{span:.6f}` at z = span. -/
noncomputable def ZCoord.str (span : ℝ) : ZCoord → String
  | .z0 => "0.0"
  | .zspan => fmt6 span

/-- The seven lines written for one facet. -/
noncomputable def triLines (span : ℝ) (t : Tri) : List SLine :=
  [.facetTag t.normal.str, .loopTag,
   .vertexTag (fmt6 t.a.x) (fmt6 t.a.y) (t.a.z.str span),
   .vertexTag (fmt6 t.b.x) (fmt6 t.b.y) (t.b.z.str span),
   .vertexTag (fmt6 t.c.x) (fmt6 t.c.y) (t.c.z.str span),
   .endloopTag, .endfacetTag]

/-- All facets emitted for one parameter record, via
`generate_bent_airfoil_coordinates`. -/
noncomputable def airfoilTris (p : AirfoilParameters) : List Tri :=
  let c := generate_bent_airfoil_coordinates p
  shapeTris c.1 c.2.1 c.2.2.1 c.2.2.2

/-- `write_airfoils_to_stl`: the full document as the list of its lines —
the `solid` header, each shape's facets in input order, and the
`endsolid` footer. -/
noncomputable def write_airfoils_to_stl (airfoils : List AirfoilParameters)
    (span : ℝ) : List SLine :=
  .solidTag "three_naca_airfoils" ::
    (airfoils.flatMap fun p => (airfoilTris p).flatMap (triLines span))
    ++ [.endsolidTag "three_naca_airfoils"]

/-! ### Reference definitions taken from the specification text
(for the refinement claim about the Curve Generator). -/

/-- Spec reference: `β_i = i·π/(point_count−1)`. -/
noncomputable def specBeta (p : AirfoilParameters) (i : ℕ) : ℝ :=
  (i : ℝ) * Real.pi / ((p.n_points - 1 : ℕ) : ℝ)

/-- Spec reference: station `x_i = 0.5·chord·(1−cos β_i)`. -/
noncomputable def specStation (p : AirfoilParameters) (i : ℕ) : ℝ :=
  0.5 * p.chord_length * (1 - Real.cos (specBeta p i))

/-- Spec reference: taper `t(x) = thickness_front·(1−x/chord) + thickness_end·(x/chord)`. -/
noncomputable def specTaper (p : AirfoilParameters) (x : ℝ) : ℝ :=
  p.thickness_front * (1 - x / p.chord_length)
    + p.thickness_end * (x / p.chord_length)

/-- Spec reference: half-thickness
`y_t(x) = 5·t(x)·chord·(0.2969√ξ − 0.1260ξ − 0.3516ξ² + 0.2843ξ³ − 0.1015ξ⁴)`
with `ξ = x/chord`. -/
noncomputable def specHalfThickness (p : AirfoilParameters) (x : ℝ) : ℝ :=
  5 * specTaper p x * p.chord_length *
    (0.2969 * Real.sqrt (x / p.chord_length)
      - 0.1260 * (x / p.chord_length)
      - 0.3516 * (x / p.chord_length) ^ 2
      + 0.2843 * (x / p.chord_length) ^ 3
      - 0.1015 * (x / p.chord_length) ^ 4)

/-- Spec reference: camber `camber(x) = bend_factor·ξ·(1−ξ)`. -/
noncomputable def specCamber (p : AirfoilParameters) (x : ℝ) : ℝ :=
  p.bend_factor * (x / p.chord_length) * (1 - x / p.chord_length)

/-- Spec reference: rotate a point counter-clockwise by the angle of attack
converted to radians, then translate by `(x_offset, y_offset)`. -/
noncomputable def specRigidTransform (p : AirfoilParameters) (q : ℝ × ℝ) : ℝ × ℝ :=
  let θ := p.angle_of_attack * (Real.pi / 180)
  (q.1 * Real.cos θ - q.2 * Real.sin θ + p.x_offset,
   q.1 * Real.sin θ + q.2 * Real.cos θ + p.y_offset)

/-- Spec reference: upper point before the rigid transform,
`(x_i, y_t(x_i) + camber(x_i))`. -/
noncomputable def specUpperPre (p : AirfoilParameters) (i : ℕ) : ℝ × ℝ :=
  (specStation p i, specHalfThickness p (specStation p i) + specCamber p (specStation p i))

/-- Spec reference: lower point before the rigid transform,
`(x_i, −y_t(x_i) + camber(x_i))`. -/
noncomputable def specLowerPre (p : AirfoilParameters) (i : ℕ) : ℝ × ℝ :=
  (specStation p i, -specHalfThickness p (specStation p i) + specCamber p (specStation p i))

/-! ### Predicates about the serialized document. -/

/-- Scan a character list for the decimal dot: true when a dot occurs and
exactly six characters — none of them another dot — follow it. -/
def sixAfterDot : List Char → Bool
  | [] => false
  | c :: rest =>
    if c = '.' then rest.length == 6 && !(rest.contains '.') else sixAfterDot rest

/-- A string consists of a whole part, one dot, and exactly six characters
after the dot. -/
def hasSixDecimals (s : String) : Bool := sixAfterDot s.toList

/-- The claim that every component of every vertex line of a document is
formatted with exactly six digits after the decimal point. -/
def allVertexComponentsSixDecimals (doc : List SLine) : Prop :=
  ∀ l ∈ doc, ∀ a b c : String, l = SLine.vertexTag a b c →
    hasSixDecimals a = true ∧ hasSixDecimals b = true ∧ hasSixDecimals c = true

/-! ### Concrete parameter records used as test inputs. -/

/-- The first airfoil of the source's `airfoils_to_generate` table
(the end-to-end scenario). -/
def scenarioParams : AirfoilParameters :=
  { n_points := 150, chord_length := 2, x_offset := 0, y_offset := 0,
    angle_of_attack := 10, bend_factor := -0.4,
    thickness_front := 0.25, thickness_end := 0.03 }

/-- A two-point airfoil rotated by 90 degrees, with unit trailing-edge
thickness: the trailing-edge stations of the two surfaces separate in x
after rotation. -/
def rotatedParams : AirfoilParameters :=
  { n_points := 2, chord_length := 1, x_offset := 0, y_offset := 0,
    angle_of_attack := 90, bend_factor := 0,
    thickness_front := 0, thickness_end := 1 }

/-- A small generic record used to instantiate universally quantified
theorems. -/
def sampleParams : AirfoilParameters :=
  { n_points := 3, chord_length := 1, x_offset := 2, y_offset := 3,
    angle_of_attack := 0, bend_factor := 1,
    thickness_front := 0.18, thickness_end := 0.05 }

/-- A degenerate one-point record. -/
def onePointParams : AirfoilParameters :=
  { n_points := 1, chord_length := 1, x_offset := 0, y_offset := 0,
    angle_of_attack := 0, bend_factor := 0,
    thickness_front := 0.18, thickness_end := 0.05 }

/-! ### Helper lemmas. -/

/-- Indexing a list built from a pointwise function. -/
theorem getD_ofFn {n : ℕ} (f : ℕ → ℝ) {i : ℕ} (h : i < n) :
    (List.ofFn (fun j : Fin n => f j)).getD i 0 = f i := by
  rw [List.getD_eq_getElem _ _ (by simpa using h)]
  simp [List.getElem_ofFn]

/-- Length of a `flatMap` of two-element blocks. -/
theorem length_flatMap_pair {α : Type} (m : ℕ) (f g : ℕ → α) :
    ((List.range m).flatMap fun i => [f i, g i]).length = 2 * m := by
  rw [List.length_flatMap]
  have hm : (List.map (List.length ∘ fun i => [f i, g i]) (List.range m))
      = List.replicate m 2 := by
    rw [show (List.length ∘ fun i => [f i, g i]) = fun _ => 2 from rfl]
    simp [List.map_const]
  rw [hm, List.sum_replicate, smul_eq_mul, Nat.mul_comm]

/-- A guarded `flatMap` over a range not exceeding the guard keeps every
element. -/
theorem flatMap_take_all {α : Type} (f : ℕ → α) (k : ℕ) : ∀ {j : ℕ}, j ≤ k →
    ((List.range j).flatMap fun i => if i < k then [f i] else [])
      = (List.range j).map f := by
  intro j
  induction j with
  | zero => simp
  | succ j ih =>
    intro h
    rw [List.range_succ, List.flatMap_append, List.map_append, ih (by omega)]
    simp [Nat.lt_of_succ_le h]

/-- A `flatMap` over `range m` guarded by `i < k` with `k ≤ m` is the map
over `range k`: exactly the first `k` indices contribute. -/
theorem flatMap_range_ite {α : Type} (f : ℕ → α) {m k : ℕ} (h : k ≤ m) :
    ((List.range m).flatMap fun i => if i < k then [f i] else [])
      = (List.range k).map f := by
  obtain ⟨d, rfl⟩ := Nat.exists_eq_add_of_le h
  rw [List.range_add, List.flatMap_append, flatMap_take_all f k (le_refl k)]
  have hnil : (List.map (fun x => k + x) (List.range d)).flatMap
      (fun i => if i < k then [f i] else []) = [] := by
    rw [List.flatMap_eq_nil_iff]
    intro x hx
    simp only [List.mem_map, List.mem_range] at hx
    obtain ⟨y, hy, rfl⟩ := hx
    rw [if_neg (by omega)]
  rw [hnil, List.append_nil]

/-- Indexing into a `flatMap` of two-element blocks. -/
theorem flatMap_pair_getElem {α : Type} (f g : ℕ → α) :
    ∀ (m : ℕ) {i : ℕ}, i < m →
      ((List.range m).flatMap fun j => [f j, g j])[2*i]? = some (f i) ∧
      ((List.range m).flatMap fun j => [f j, g j])[2*i+1]? = some (g i) := by
  intro m
  induction m with
  | zero => intro i hi; omega
  | succ m ih =>
    intro i hi
    rw [List.range_succ, List.flatMap_append]
    have hlen : ((List.range m).flatMap fun j => [f j, g j]).length = 2*m :=
      length_flatMap_pair m f g
    rcases Nat.lt_or_ge i m with h | h
    · rw [List.getElem?_append, List.getElem?_append]
      rw [if_pos (by omega), if_pos (by omega)]
      exact ih h
    · have him : i = m := by omega
      subst him
      rw [List.getElem?_append_right (by omega), List.getElem?_append_right (by omega)]
      rw [hlen]
      constructor
      · simp
      · have h1 : 2*i+1 - 2*i = 1 := by omega
        rw [h1]
        simp

/-- Counting over a `flatMap` whose blocks each contribute the same count. -/
theorem countP_flatMap_const {α β : Type} (p : β → Bool) (F : α → List β) (c : ℕ)
    (hc : ∀ a, (F a).countP p = c) : ∀ l : List α,
    (l.flatMap F).countP p = c * l.length := by
  intro l
  induction l with
  | nil => simp
  | cons a l ih =>
    rw [List.flatMap_cons, List.countP_append, hc, ih, List.length_cons]
    ring

/-- Two predicates counting equally on every block count equally on the
`flatMap`. -/
theorem countP_flatMap_eq {α β : Type} (p q : β → Bool) (F : α → List β)
    (h : ∀ a, (F a).countP p = (F a).countP q) : ∀ l : List α,
    (l.flatMap F).countP p = (l.flatMap F).countP q := by
  intro l
  induction l with
  | nil => rfl
  | cons a l ih =>
    rw [List.flatMap_cons, List.countP_append, List.countP_append, h, ih]

/-- Each facet block contains exactly one `facet normal` line. -/
theorem triLines_countP_facet (span : ℝ) (t : Tri) :
    (triLines span t).countP SLine.isFacetTag = 1 := by
  simp [triLines, List.countP_cons, SLine.isFacetTag]

/-- Each facet block contains exactly one `endfacet` line. -/
theorem triLines_countP_endfacet (span : ℝ) (t : Tri) :
    (triLines span t).countP SLine.isEndfacetTag = 1 := by
  simp [triLines, List.countP_cons, SLine.isEndfacetTag]

/-- Each facet block contains exactly one `outer loop` line. -/
theorem triLines_countP_loop (span : ℝ) (t : Tri) :
    (triLines span t).countP SLine.isLoopTag = 1 := by
  simp [triLines, List.countP_cons, SLine.isLoopTag]

/-- Each facet block contains exactly one `endloop` line. -/
theorem triLines_countP_endloop (span : ℝ) (t : Tri) :
    (triLines span t).countP SLine.isEndloopTag = 1 := by
  simp [triLines, List.countP_cons, SLine.isEndloopTag]

/-- The number of facets the writer emits for one shape. -/
theorem airfoilTris_length (p : AirfoilParameters) :
    (airfoilTris p).length = 4 * (p.n_points - 1) + 2 * (p.n_points / 2) := by
  have hk : p.n_points / 2 ≤ p.n_points - 1 := by omega
  rw [airfoilTris]
  simp only [generate_bent_airfoil_coordinates, shapeTris, List.length_ofFn,
    List.length_append]
  rw [topShellTris, bottomShellTris, frontCapTris, backCapTris,
    length_flatMap_pair, length_flatMap_pair,
    flatMap_range_ite _ hk, flatMap_range_ite _ hk]
  simp only [List.length_map, List.length_range]
  omega

/-! ### Claim theorems. -/

/-- C5: for a single shape whose generated curve has `n ≥ 1` points and a
positive span, the writer emits exactly `4·(n−1) + 2·⌊n/2⌋` facets for
that shape; in particular `point_count = 1` yields zero facets (and the
emitter is a total function, so no error can be raised). -/
theorem facet_count_per_shape (p : AirfoilParameters) (span : ℝ)
    (hn : 1 ≤ p.n_points) (hspan : 0 < span) :
    ((airfoilTris p).flatMap (triLines span)).countP SLine.isFacetTag
      = 4 * (p.n_points - 1) + 2 * (p.n_points / 2) := by
  rw [countP_flatMap_const SLine.isFacetTag (triLines span) 1
    (triLines_countP_facet span), Nat.one_mul, airfoilTris_length]

/-- C5 witness: the degenerate one-point shape produces zero facets. -/
theorem facet_count_per_shape_witness :
    1 ≤ onePointParams.n_points ∧ (0:ℝ) < 1 ∧
    ((airfoilTris onePointParams).flatMap (triLines 1)).countP SLine.isFacetTag = 0 := by
  refine ⟨by decide, by norm_num, ?_⟩
  have h := facet_count_per_shape onePointParams 1 (by decide) (by norm_num)
  simpa [onePointParams] using h

/-- C8: for every input list of shapes, the document's first line is
`solid three_naca_airfoils` and its last the matching
`endsolid three_naca_airfoils` — the same fixed literal name however many
shapes there are — and the `facet normal`/`endfacet` and
`outer loop`/`endloop` lines balance. -/
theorem document_structure (airfoils : List AirfoilParameters) (span : ℝ) :
    (write_airfoils_to_stl airfoils span).head?
      = some (.solidTag "three_naca_airfoils") ∧
    (write_airfoils_to_stl airfoils span).getLast?
      = some (.endsolidTag "three_naca_airfoils") ∧
    (write_airfoils_to_stl airfoils span).countP SLine.isFacetTag
      = (write_airfoils_to_stl airfoils span).countP SLine.isEndfacetTag ∧
    (write_airfoils_to_stl airfoils span).countP SLine.isLoopTag
      = (write_airfoils_to_stl airfoils span).countP SLine.isEndloopTag := by
  refine ⟨by simp [write_airfoils_to_stl], ?_, ?_, ?_⟩
  · rw [write_airfoils_to_stl, List.getLast?_concat]
  · rw [write_airfoils_to_stl]
    rw [List.countP_append, List.countP_append, List.countP_cons, List.countP_cons]
    have hbal : (airfoils.flatMap fun p =>
        (airfoilTris p).flatMap (triLines span)).countP SLine.isFacetTag
        = (airfoils.flatMap fun p =>
        (airfoilTris p).flatMap (triLines span)).countP SLine.isEndfacetTag := by
      refine countP_flatMap_eq _ _ _ (fun p => ?_) airfoils
      refine countP_flatMap_eq _ _ (triLines span) (fun t => ?_) (airfoilTris p)
      rw [triLines_countP_facet, triLines_countP_endfacet]
    rw [hbal]
    simp [SLine.isFacetTag, SLine.isEndfacetTag]
  · rw [write_airfoils_to_stl]
    rw [List.countP_append, List.countP_append, List.countP_cons, List.countP_cons]
    have hbal : (airfoils.flatMap fun p =>
        (airfoilTris p).flatMap (triLines span)).countP SLine.isLoopTag
        = (airfoils.flatMap fun p =>
        (airfoilTris p).flatMap (triLines span)).countP SLine.isEndloopTag := by
      refine countP_flatMap_eq _ _ _ (fun p => ?_) airfoils
      refine countP_flatMap_eq _ _ (triLines span) (fun t => ?_) (airfoilTris p)
      rw [triLines_countP_loop, triLines_countP_endloop]
    rw [hbal]
    simp [SLine.isLoopTag, SLine.isEndloopTag]

/-- C4: for every shape, the front cap at z = 0 and the back cap at z = span
contain one triangle exactly for each chordwise index `i < n/2` (integer
division) and none for `i ≥ n/2`; the triangle for index `i` connects
`upper[i]`, `lower[n−1−i]` and `upper[i+1]` at the cap's z, with facet
normal (0,0,−1) for the front cap and (0,0,1) for the back cap. -/
theorem cap_triangles (p : AirfoilParameters) :
    frontCapTris (generate_bent_airfoil_coordinates p).1.length
        (generate_bent_airfoil_coordinates p).1
        (generate_bent_airfoil_coordinates p).2.1
        (generate_bent_airfoil_coordinates p).2.2.1
        (generate_bent_airfoil_coordinates p).2.2.2
      = (List.range (p.n_points / 2)).map (fun i =>
          ⟨.negZ, ⟨xUpperRotF p i, yUpperRotF p i, .z0⟩,
            ⟨xLowerRotF p (p.n_points - 1 - i), yLowerRotF p (p.n_points - 1 - i), .z0⟩,
            ⟨xUpperRotF p (i+1), yUpperRotF p (i+1), .z0⟩⟩) ∧
    backCapTris (generate_bent_airfoil_coordinates p).1.length
        (generate_bent_airfoil_coordinates p).1
        (generate_bent_airfoil_coordinates p).2.1
        (generate_bent_airfoil_coordinates p).2.2.1
        (generate_bent_airfoil_coordinates p).2.2.2
      = (List.range (p.n_points / 2)).map (fun i =>
          ⟨.posZ, ⟨xUpperRotF p i, yUpperRotF p i, .zspan⟩,
            ⟨xUpperRotF p (i+1), yUpperRotF p (i+1), .zspan⟩,
            ⟨xLowerRotF p (p.n_points - 1 - i), yLowerRotF p (p.n_points - 1 - i), .zspan⟩⟩) ∧
    FacetNormal.negZ.vec = (0, 0, -1) ∧ FacetNormal.posZ.vec = (0, 0, 1) ∧
    ∀ span : ℝ, ZCoord.z0.toReal span = 0 ∧ ZCoord.zspan.toReal span = span := by
  refine ⟨?_, ?_, rfl, rfl, fun span => ⟨rfl, rfl⟩⟩
  · simp only [generate_bent_airfoil_coordinates, List.length_ofFn, frontCapTris]
    rw [flatMap_range_ite _ (show p.n_points / 2 ≤ p.n_points - 1 by omega)]
    refine List.map_congr_left (fun i hi => ?_)
    simp only [List.mem_range] at hi
    have h1 : i < p.n_points := by omega
    have h2 : i + 1 < p.n_points := by omega
    have h3 : p.n_points - 1 - i < p.n_points := by omega
    rw [getD_ofFn _ h1, getD_ofFn _ h1, getD_ofFn _ h2, getD_ofFn _ h2,
        getD_ofFn _ h3, getD_ofFn _ h3]
  · simp only [generate_bent_airfoil_coordinates, List.length_ofFn, backCapTris]
    rw [flatMap_range_ite _ (show p.n_points / 2 ≤ p.n_points - 1 by omega)]
    refine List.map_congr_left (fun i hi => ?_)
    simp only [List.mem_range] at hi
    have h1 : i < p.n_points := by omega
    have h2 : i + 1 < p.n_points := by omega
    have h3 : p.n_points - 1 - i < p.n_points := by omega
    rw [getD_ofFn _ h1, getD_ofFn _ h1, getD_ofFn _ h2, getD_ofFn _ h2,
        getD_ofFn _ h3, getD_ofFn _ h3]

/-- C6: for every shape and adjacent station pair `i, i+1`, the top shell's
two triangles have facet normal (0,0,1) and the exact vertex orders
`(upper[i],0), (upper[i+1],0), (upper[i],span)` and
`(upper[i+1],0), (upper[i+1],span), (upper[i],span)`, and the bottom
shell's two triangles have facet normal (0,0,−1) and the exact vertex
orders `(lower[i],0), (lower[i],span), (lower[i+1],0)` and
`(lower[i+1],0), (lower[i],span), (lower[i+1],span)`. -/
theorem shell_triangle_order (p : AirfoilParameters) {i : ℕ}
    (hi : i < p.n_points - 1) :
    ((topShellTris (generate_bent_airfoil_coordinates p).1.length
        (generate_bent_airfoil_coordinates p).1
        (generate_bent_airfoil_coordinates p).2.1)[2*i]?
      = some ⟨.posZ, ⟨xUpperRotF p i, yUpperRotF p i, .z0⟩,
          ⟨xUpperRotF p (i+1), yUpperRotF p (i+1), .z0⟩,
          ⟨xUpperRotF p i, yUpperRotF p i, .zspan⟩⟩) ∧
    ((topShellTris (generate_bent_airfoil_coordinates p).1.length
        (generate_bent_airfoil_coordinates p).1
        (generate_bent_airfoil_coordinates p).2.1)[2*i+1]?
      = some ⟨.posZ, ⟨xUpperRotF p (i+1), yUpperRotF p (i+1), .z0⟩,
          ⟨xUpperRotF p (i+1), yUpperRotF p (i+1), .zspan⟩,
          ⟨xUpperRotF p i, yUpperRotF p i, .zspan⟩⟩) ∧
    ((bottomShellTris (generate_bent_airfoil_coordinates p).1.length
        (generate_bent_airfoil_coordinates p).2.2.1
        (generate_bent_airfoil_coordinates p).2.2.2)[2*i]?
      = some ⟨.negZ, ⟨xLowerRotF p i, yLowerRotF p i, .z0⟩,
          ⟨xLowerRotF p i, yLowerRotF p i, .zspan⟩,
          ⟨xLowerRotF p (i+1), yLowerRotF p (i+1), .z0⟩⟩) ∧
    ((bottomShellTris (generate_bent_airfoil_coordinates p).1.length
        (generate_bent_airfoil_coordinates p).2.2.1
        (generate_bent_airfoil_coordinates p).2.2.2)[2*i+1]?
      = some ⟨.negZ, ⟨xLowerRotF p (i+1), yLowerRotF p (i+1), .z0⟩,
          ⟨xLowerRotF p i, yLowerRotF p i, .zspan⟩,
          ⟨xLowerRotF p (i+1), yLowerRotF p (i+1), .zspan⟩⟩) ∧
    FacetNormal.posZ.vec = (0, 0, 1) ∧ FacetNormal.negZ.vec = (0, 0, -1) := by
  have h1 : i < p.n_points := by omega
  have h2 : i + 1 < p.n_points := by omega
  refine ⟨?_, ?_, ?_, ?_, rfl, rfl⟩ <;>
    simp only [generate_bent_airfoil_coordinates, List.length_ofFn,
      topShellTris, bottomShellTris] <;>
    [rw [(flatMap_pair_getElem _ _ (p.n_points - 1) hi).1];
     rw [(flatMap_pair_getElem _ _ (p.n_points - 1) hi).2];
     rw [(flatMap_pair_getElem _ _ (p.n_points - 1) hi).1];
     rw [(flatMap_pair_getElem _ _ (p.n_points - 1) hi).2]] <;>
    rw [getD_ofFn _ h1, getD_ofFn _ h1, getD_ofFn _ h2, getD_ofFn _ h2]

/-- C6 witness: instantiation at the three-point sample record, first
station pair. -/
theorem shell_triangle_order_witness :
    (0 : ℕ) < sampleParams.n_points - 1 ∧
    ((topShellTris (generate_bent_airfoil_coordinates sampleParams).1.length
        (generate_bent_airfoil_coordinates sampleParams).1
        (generate_bent_airfoil_coordinates sampleParams).2.1)[0]?
      = some ⟨.posZ, ⟨xUpperRotF sampleParams 0, yUpperRotF sampleParams 0, .z0⟩,
          ⟨xUpperRotF sampleParams 1, yUpperRotF sampleParams 1, .z0⟩,
          ⟨xUpperRotF sampleParams 0, yUpperRotF sampleParams 0, .zspan⟩⟩) := by
  refine ⟨by decide, ?_⟩
  have h := (shell_triangle_order sampleParams
    (show (0:ℕ) < sampleParams.n_points - 1 by decide)).1
  simpa using h

/-- The first cosine-spacing angle is 0 (both `linspace` branches give the
start value). -/
theorem betaF_zero (p : AirfoilParameters) : betaF p 0 = 0 := by
  rw [betaF, linspaceF]
  split <;> simp

/-- The last cosine-spacing angle is π when there are at least two points. -/
theorem betaF_last (p : AirfoilParameters) (hn : 2 ≤ p.n_points) :
    betaF p (p.n_points - 1) = Real.pi := by
  rw [betaF, linspaceF, if_neg (by omega)]
  have hne : ((p.n_points - 1 : ℕ) : ℝ) ≠ 0 := Nat.cast_ne_zero.mpr (by omega)
  rw [zero_add, sub_zero, ← mul_div_assoc, mul_div_cancel_left₀ _ hne]

/-- C9: the curve closes at the leading edge: station 0 sits at the origin
before the transform — both half-thickness and camber vanish there — so
`upper[0] = lower[0]`, and after the rigid transform both equal exactly
`(x_offset, y_offset)`. -/
theorem leading_edge_closed (p : AirfoilParameters) (hn : 2 ≤ p.n_points)
    (hc : 0 < p.chord_length) :
    xUpperF p 0 = xLowerF p 0 ∧ yUpperF p 0 = yLowerF p 0 ∧
    xUpperF p 0 = 0 ∧ yUpperF p 0 = 0 ∧
    xUpperRotF p 0 = p.x_offset ∧ yUpperRotF p 0 = p.y_offset ∧
    xLowerRotF p 0 = p.x_offset ∧ yLowerRotF p 0 = p.y_offset := by
  have hx : xF p 0 = 0 := by
    rw [xF, betaF_zero, Real.cos_zero]
    ring
  have hyt : ytF p 0 = 0 := by
    rw [ytF, hx]
    simp
  have hcam : camberF p 0 = 0 := by
    rw [camberF, hx]
    ring
  refine ⟨rfl, ?_, hx, ?_, ?_, ?_, ?_, ?_⟩ <;>
    simp [xUpperRotF, yUpperRotF, xLowerRotF, yLowerRotF, xUpperF, xLowerF,
      yUpperF, yLowerF, hx, hyt, hcam]

/-- C9 witness: at the sample record the leading edge lands on the offset
`(2, 3)`. -/
theorem leading_edge_closed_witness :
    xUpperRotF sampleParams 0 = 2 ∧ yUpperRotF sampleParams 0 = 3 ∧
    xLowerRotF sampleParams 0 = 2 ∧ yLowerRotF sampleParams 0 = 3 := by
  have h := leading_edge_closed sampleParams (by decide) (by norm_num [sampleParams])
  exact ⟨h.2.2.2.2.1, h.2.2.2.2.2.1, h.2.2.2.2.2.2.1, h.2.2.2.2.2.2.2⟩

/-- C10: the trailing edge does not close: at station `n−1` the
half-thickness is `5·thickness_end·chord·0.0021`, strictly positive, so the
two surfaces' trailing-edge points still differ after the rigid
transform. -/
theorem trailing_edge_open (p : AirfoilParameters) (hn : 2 ≤ p.n_points)
    (hc : 0 < p.chord_length) (hte : 0 < p.thickness_end) :
    ytF p (p.n_points - 1) = 5 * p.thickness_end * p.chord_length * 0.0021 ∧
    0 < ytF p (p.n_points - 1) ∧
    (xUpperRotF p (p.n_points - 1), yUpperRotF p (p.n_points - 1)) ≠
      (xLowerRotF p (p.n_points - 1), yLowerRotF p (p.n_points - 1)) := by
  have hx : xF p (p.n_points - 1) = p.chord_length := by
    rw [xF, betaF_last p hn, Real.cos_pi]
    ring
  have hxi : xF p (p.n_points - 1) / p.chord_length = 1 := by
    rw [hx]
    exact div_self hc.ne'
  have htap : thicknessTaperF p (p.n_points - 1) = p.thickness_end := by
    rw [thicknessTaperF, hxi]
    ring
  have hyt : ytF p (p.n_points - 1) = 5 * p.thickness_end * p.chord_length * 0.0021 := by
    rw [ytF, htap, hxi, Real.sqrt_one]
    ring_nf
  have hpos : 0 < ytF p (p.n_points - 1) := by
    rw [hyt]
    positivity
  refine ⟨hyt, hpos, ?_⟩
  intro heq
  rw [Prod.mk.injEq] at heq
  obtain ⟨he1, he2⟩ := heq
  rw [xUpperRotF, xLowerRotF, xUpperF, xLowerF, yUpperF, yLowerF] at he1
  rw [yUpperRotF, yLowerRotF, xUpperF, xLowerF, yUpperF, yLowerF] at he2
  have hsin : Real.sin (alphaOf p) = 0 := by
    have h2 : ytF p (p.n_points - 1) * Real.sin (alphaOf p) = 0 := by
      linear_combination (-(1:ℝ)/2) * he1
    rcases mul_eq_zero.1 h2 with h | h
    · exact absurd h (ne_of_gt hpos)
    · exact h
  have hcos : Real.cos (alphaOf p) = 0 := by
    have h2 : ytF p (p.n_points - 1) * Real.cos (alphaOf p) = 0 := by
      linear_combination ((1:ℝ)/2) * he2
    rcases mul_eq_zero.1 h2 with h | h
    · exact absurd h (ne_of_gt hpos)
    · exact h
  have hone := Real.sin_sq_add_cos_sq (alphaOf p)
  rw [hsin, hcos] at hone
  norm_num at hone

/-- C10 witness: the scenario airfoil's trailing edge stays open. -/
theorem trailing_edge_open_witness :
    ytF scenarioParams 149 = 5 * (0.03 : ℝ) * 2 * 0.0021 ∧
    (xUpperRotF scenarioParams 149, yUpperRotF scenarioParams 149) ≠
      (xLowerRotF scenarioParams 149, yLowerRotF scenarioParams 149) := by
  have h := trailing_edge_open scenarioParams (by decide)
    (by norm_num [scenarioParams]) (by norm_num [scenarioParams])
  constructor
  · have h1 := h.1
    norm_num [scenarioParams] at h1 ⊢
    convert h1 using 2 <;> norm_num [scenarioParams]
  · have h3 := h.2.2
    norm_num [scenarioParams] at h3 ⊢
    exact h3

/-- C2 (amended): the generator returns four sequences of length
`point_count`, the two surfaces share their chordwise stations *before*
the rigid transform (`x_upper[i] = x_lower[i] = x_i`), and only y differs
there, by twice the half-thickness. -/
theorem surface_lengths_and_stations (p : AirfoilParameters) :
    (generate_bent_airfoil_coordinates p).1.length = p.n_points ∧
    (generate_bent_airfoil_coordinates p).2.1.length = p.n_points ∧
    (generate_bent_airfoil_coordinates p).2.2.1.length = p.n_points ∧
    (generate_bent_airfoil_coordinates p).2.2.2.length = p.n_points ∧
    (∀ i, xUpperF p i = xLowerF p i) ∧
    (∀ i, yUpperF p i - yLowerF p i = 2 * ytF p i) := by
  refine ⟨by simp [generate_bent_airfoil_coordinates],
    by simp [generate_bent_airfoil_coordinates],
    by simp [generate_bent_airfoil_coordinates],
    by simp [generate_bent_airfoil_coordinates],
    fun i => rfl, fun i => ?_⟩
  rw [yUpperF, yLowerF]
  ring

/-- C2 counterexample: the curve the generator *returns* is the rotated
one, and for the 90°-rotated two-point airfoil the two surfaces'
trailing-edge x coordinates differ (−0.0105 vs 0.0105), so the produced
`SurfaceCurve` does not satisfy `upper[i].x = lower[i].x` at every index. -/
theorem rotated_stations_differ :
    (generate_bent_airfoil_coordinates rotatedParams).1.getD 1 0 ≠
    (generate_bent_airfoil_coordinates rotatedParams).2.2.1.getD 1 0 := by
  have hu : (generate_bent_airfoil_coordinates rotatedParams).1.getD 1 0
      = xUpperRotF rotatedParams 1 := by
    rw [generate_bent_airfoil_coordinates]
    exact getD_ofFn _ (show (1:ℕ) < rotatedParams.n_points by decide)
  have hl : (generate_bent_airfoil_coordinates rotatedParams).2.2.1.getD 1 0
      = xLowerRotF rotatedParams 1 := by
    rw [generate_bent_airfoil_coordinates]
    exact getD_ofFn _ (show (1:ℕ) < rotatedParams.n_points by decide)
  have hb : betaF rotatedParams 1 = Real.pi := by
    rw [betaF, linspaceF, if_neg (by decide)]
    norm_num [rotatedParams]
  have hx : xF rotatedParams 1 = 1 := by
    rw [xF, hb, Real.cos_pi]
    norm_num [rotatedParams]
  have hxi : xF rotatedParams 1 / rotatedParams.chord_length = 1 := by
    rw [hx]
    norm_num [rotatedParams]
  have htap : thicknessTaperF rotatedParams 1 = 1 := by
    rw [thicknessTaperF, hxi]
    norm_num [rotatedParams]
  have hyt : ytF rotatedParams 1 = 0.0105 := by
    rw [ytF, htap, hxi, Real.sqrt_one]
    norm_num [rotatedParams]
  have hcam : camberF rotatedParams 1 = 0 := by
    rw [camberF, hxi]
    norm_num [rotatedParams]
  have halpha : alphaOf rotatedParams = Real.pi / 2 := by
    rw [alphaOf, show rotatedParams.angle_of_attack = 90 from rfl]
    ring
  have hgu : xUpperRotF rotatedParams 1 = -0.0105 := by
    rw [xUpperRotF, halpha, Real.cos_pi_div_two, Real.sin_pi_div_two,
      xUpperF, yUpperF, hx, hyt, hcam, show rotatedParams.x_offset = 0 from rfl]
    ring
  have hgl : xLowerRotF rotatedParams 1 = 0.0105 := by
    rw [xLowerRotF, halpha, Real.cos_pi_div_two, Real.sin_pi_div_two,
      xLowerF, yLowerF, hx, hyt, hcam, show rotatedParams.x_offset = 0 from rfl]
    ring
  rw [hu, hl, hgu, hgl]
  norm_num

/-- The degree-7 factor of the four-digit thickness polynomial (in the
variable `u = √ξ`) is nonnegative on `[0, 1]`. -/
theorem naca_g_nonneg {u : ℝ} (h0 : 0 ≤ u) (h1 : u ≤ 1) :
    0 ≤ 0.2969 - 0.1260*u - 0.3516*u^3 + 0.2843*u^5 - 0.1015*u^7 := by
  have hQ : 0 ≤ 1015*u^6 + 1015*u^5 - 1828*u^4 - 1828*u^3 + 1688*u^2 + 1688*u + 2948 := by
    nlinarith [pow_nonneg h0 6, pow_nonneg h0 5, pow_nonneg h0 2,
      mul_nonneg (mul_nonneg (sq_nonneg u) (sub_nonneg.2 h1)) (by linarith : (0:ℝ) ≤ 1 + u),
      mul_nonneg (mul_nonneg h0 (sub_nonneg.2 h1)) (by linarith : (0:ℝ) ≤ 1 + u)]
  nlinarith [mul_nonneg (sub_nonneg.2 h1) hQ]

/-- The chord fraction `ξ_i = x_i / chord` of every cosine-spaced station
lies in `[0, 1]` for a positive chord. -/
theorem xi_mem_unit (p : AirfoilParameters) (hc : 0 < p.chord_length) (i : ℕ) :
    0 ≤ xF p i / p.chord_length ∧ xF p i / p.chord_length ≤ 1 := by
  have hcos1 : Real.cos (betaF p i) ≤ 1 := Real.cos_le_one _
  have hcos2 : -1 ≤ Real.cos (betaF p i) := Real.neg_one_le_cos _
  constructor
  · apply div_nonneg _ hc.le
    rw [xF]
    nlinarith
  · rw [div_le_one hc, xF]
    nlinarith

/-- Half-thickness is nonnegative at every station for nonnegative
thickness parameters and a positive chord. -/
theorem ytF_nonneg (p : AirfoilParameters) (htf : 0 ≤ p.thickness_front)
    (hte : 0 ≤ p.thickness_end) (hc : 0 < p.chord_length) (i : ℕ) :
    0 ≤ ytF p i := by
  obtain ⟨hx0, hx1⟩ := xi_mem_unit p hc i
  have htap : 0 ≤ thicknessTaperF p i := by
    rw [thicknessTaperF]
    nlinarith
  have hu0 : 0 ≤ Real.sqrt (xF p i / p.chord_length) := Real.sqrt_nonneg _
  have hu1 : Real.sqrt (xF p i / p.chord_length) ≤ 1 := Real.sqrt_le_one.mpr hx1
  have husq : Real.sqrt (xF p i / p.chord_length) ^ 2 = xF p i / p.chord_length :=
    Real.sq_sqrt hx0
  rw [ytF]
  set u := Real.sqrt (xF p i / p.chord_length) with hu
  rw [show xF p i / p.chord_length = u ^ 2 from husq.symm]
  have hg := naca_g_nonneg hu0 hu1
  have h5 : 0 ≤ 5 * thicknessTaperF p i * p.chord_length :=
    mul_nonneg (mul_nonneg (by norm_num) htap) hc.le
  refine mul_nonneg h5 ?_
  nlinarith [mul_nonneg hu0 hg]

/-- C7: for valid parameters the two surfaces share every chordwise
station before the transform, and after rotation plus translation the
Euclidean distance between `upper[i]` and `lower[i]` is exactly
`2·y_t(x_i)` — the rigid transform preserves distances. -/
theorem surface_distance (p : AirfoilParameters) (i : ℕ) (hn : 2 ≤ p.n_points)
    (htf : 0 ≤ p.thickness_front) (hte : 0 ≤ p.thickness_end)
    (hc : 0 < p.chord_length) :
    xUpperF p i = xLowerF p i ∧
    Real.sqrt ((xUpperRotF p i - xLowerRotF p i)^2
      + (yUpperRotF p i - yLowerRotF p i)^2) = 2 * ytF p i := by
  refine ⟨rfl, ?_⟩
  have hyt := ytF_nonneg p htf hte hc i
  have hdx : xUpperRotF p i - xLowerRotF p i
      = -(2 * ytF p i) * Real.sin (alphaOf p) := by
    rw [xUpperRotF, xLowerRotF, xUpperF, xLowerF, yUpperF, yLowerF]
    ring
  have hdy : yUpperRotF p i - yLowerRotF p i
      = (2 * ytF p i) * Real.cos (alphaOf p) := by
    rw [yUpperRotF, yLowerRotF, xUpperF, xLowerF, yUpperF, yLowerF]
    ring
  rw [hdx, hdy]
  have hsc := Real.sin_sq_add_cos_sq (alphaOf p)
  have hsq : (-(2 * ytF p i) * Real.sin (alphaOf p))^2
      + ((2 * ytF p i) * Real.cos (alphaOf p))^2 = (2 * ytF p i)^2 := by
    linear_combination ((2 * ytF p i)^2) * hsc
  rw [hsq, Real.sqrt_sq (by linarith)]

/-- C7 witness: instantiation at the sample record, leading-edge index. -/
theorem surface_distance_witness :
    Real.sqrt ((xUpperRotF sampleParams 0 - xLowerRotF sampleParams 0)^2
      + (yUpperRotF sampleParams 0 - yLowerRotF sampleParams 0)^2)
      = 2 * ytF sampleParams 0 :=
  (surface_distance sampleParams 0 (by decide) (by norm_num [sampleParams])
    (by norm_num [sampleParams]) (by norm_num [sampleParams])).2

/-- C1: for `point_count ≥ 2` the generator returns exactly the spec's
reference definition at every index: cosine-spaced station, tapered
four-digit half-thickness, parabolic camber, then the counter-clockwise
rotation by the angle of attack in radians and the offset translation. -/
theorem generator_matches_spec (p : AirfoilParameters) (i : ℕ)
    (hn : 2 ≤ p.n_points) (hi : i < p.n_points) :
    ((generate_bent_airfoil_coordinates p).1.getD i 0,
     (generate_bent_airfoil_coordinates p).2.1.getD i 0)
      = specRigidTransform p (specUpperPre p i) ∧
    ((generate_bent_airfoil_coordinates p).2.2.1.getD i 0,
     (generate_bent_airfoil_coordinates p).2.2.2.getD i 0)
      = specRigidTransform p (specLowerPre p i) := by
  have hb : betaF p i = specBeta p i := by
    rw [betaF, linspaceF, if_neg (by omega), specBeta, sub_zero, zero_add,
      mul_div_assoc]
  have h1 : (generate_bent_airfoil_coordinates p).1.getD i 0 = xUpperRotF p i := by
    rw [generate_bent_airfoil_coordinates]
    exact getD_ofFn _ hi
  have h2 : (generate_bent_airfoil_coordinates p).2.1.getD i 0 = yUpperRotF p i := by
    rw [generate_bent_airfoil_coordinates]
    exact getD_ofFn _ hi
  have h3 : (generate_bent_airfoil_coordinates p).2.2.1.getD i 0 = xLowerRotF p i := by
    rw [generate_bent_airfoil_coordinates]
    exact getD_ofFn _ hi
  have h4 : (generate_bent_airfoil_coordinates p).2.2.2.getD i 0 = yLowerRotF p i := by
    rw [generate_bent_airfoil_coordinates]
    exact getD_ofFn _ hi
  rw [h1, h2, h3, h4]
  constructor <;>
    simp only [xUpperRotF, yUpperRotF, xLowerRotF, yLowerRotF, xUpperF, xLowerF,
      yUpperF, yLowerF, ytF, camberF, thicknessTaperF, xF, alphaOf, hb,
      specRigidTransform, specUpperPre, specLowerPre, specStation,
      specHalfThickness, specTaper, specCamber, Prod.mk.injEq] <;>
    exact ⟨by ring, by ring⟩

/-- C1 witness: instantiation at the sample record, index 1. -/
theorem generator_matches_spec_witness :
    ((generate_bent_airfoil_coordinates sampleParams).1.getD 1 0,
     (generate_bent_airfoil_coordinates sampleParams).2.1.getD 1 0)
      = specRigidTransform sampleParams (specUpperPre sampleParams 1) :=
  (generator_matches_spec sampleParams 1 (by decide) (by decide)).1

/-- Python's `f"{1.0:.6f}"` is `1.000000`. -/
theorem fmt6_one : fmt6 (1 : ℝ) = "1.000000" := by
  rw [fmt6, if_neg (by norm_num)]
  have h1 : |(1:ℝ)| * 10 ^ 6 = ((1000000 : ℕ) : ℝ) := by norm_num
  rw [h1, round_natCast]
  rfl

/-- Every vertex line's z slot is either the literal `0.0` or the
formatted span. -/
theorem mem_triLines_z {span : ℝ} {t : Tri} {a b c : String}
    (h : SLine.vertexTag a b c ∈ triLines span t) :
    c = "0.0" ∨ c = fmt6 span := by
  have hz : ∀ z : ZCoord, z.str span = "0.0" ∨ z.str span = fmt6 span := by
    intro z
    cases z
    · exact Or.inl rfl
    · exact Or.inr rfl
  simp only [triLines, List.mem_cons, List.not_mem_nil, or_false] at h
  rcases h with h|h|h|h|h|h|h
  · exact absurd h (by simp)
  · exact absurd h (by simp)
  · injection h with h1 h2 h3
    rw [h3]
    exact hz t.a.z
  · injection h with h1 h2 h3
    rw [h3]
    exact hz t.b.z
  · injection h with h1 h2 h3
    rw [h3]
    exact hz t.c.z
  · exact absurd h (by simp)
  · exact absurd h (by simp)

/-- The scenario document starts with the header and the first top-shell
facet block: its two z = 0 vertices carry the literal `0.0` and its third
vertex the formatted span. -/
theorem scenario_doc_prefix :
    ∃ rest : List SLine, write_airfoils_to_stl [scenarioParams] 1 =
      SLine.solidTag "three_naca_airfoils" ::
      SLine.facetTag "0.0 0.0 1.0" :: SLine.loopTag ::
      SLine.vertexTag (fmt6 (xUpperRotF scenarioParams 0))
        (fmt6 (yUpperRotF scenarioParams 0)) "0.0" ::
      SLine.vertexTag (fmt6 (xUpperRotF scenarioParams (0+1)))
        (fmt6 (yUpperRotF scenarioParams (0+1))) "0.0" ::
      SLine.vertexTag (fmt6 (xUpperRotF scenarioParams 0))
        (fmt6 (yUpperRotF scenarioParams 0)) (fmt6 1) ::
      SLine.endloopTag :: SLine.endfacetTag :: rest :=
  ⟨_, by
    rw [write_airfoils_to_stl, List.flatMap_cons, List.flatMap_nil, List.append_nil]
    simp only [airfoilTris, generate_bent_airfoil_coordinates, shapeTris,
      List.length_ofFn]
    rw [topShellTris, show scenarioParams.n_points - 1 = 148 + 1 from rfl,
      List.range_succ_eq_map, List.flatMap_cons]
    rw [getD_ofFn _ (show (0:ℕ) < scenarioParams.n_points by decide),
      getD_ofFn _ (show (0:ℕ) < scenarioParams.n_points by decide),
      getD_ofFn _ (show (0+1:ℕ) < scenarioParams.n_points by decide),
      getD_ofFn _ (show (0+1:ℕ) < scenarioParams.n_points by decide)]
    simp only [List.cons_append, List.nil_append, List.append_assoc,
      List.flatMap_append, List.flatMap_cons, triLines, ZCoord.str,
      FacetNormal.str]
    rfl⟩

/-- C3 counterexample: the document for the two-point rotated shape has a
vertex line whose z component is the literal string `0.0` — one decimal
digit, not six — so not every numeric vertex component is written with
exactly six digits after the decimal point. -/
theorem not_all_six_decimals :
    ¬ allVertexComponentsSixDecimals (write_airfoils_to_stl [rotatedParams] 1) := by
  intro h
  have hmem : SLine.vertexTag (fmt6 (xUpperRotF rotatedParams 0))
      (fmt6 (yUpperRotF rotatedParams 0)) "0.0"
      ∈ write_airfoils_to_stl [rotatedParams] 1 := by
    rw [write_airfoils_to_stl, List.flatMap_cons, List.flatMap_nil, List.append_nil]
    simp only [airfoilTris, generate_bent_airfoil_coordinates, shapeTris,
      List.length_ofFn]
    rw [topShellTris, show rotatedParams.n_points - 1 = 0 + 1 from rfl,
      List.range_succ_eq_map, List.flatMap_cons]
    rw [getD_ofFn _ (show (0:ℕ) < rotatedParams.n_points by decide),
      getD_ofFn _ (show (0:ℕ) < rotatedParams.n_points by decide),
      getD_ofFn _ (show (0+1:ℕ) < rotatedParams.n_points by decide),
      getD_ofFn _ (show (0+1:ℕ) < rotatedParams.n_points by decide)]
    simp only [List.cons_append, List.nil_append, List.append_assoc,
      List.flatMap_append, List.flatMap_cons, triLines, ZCoord.str,
      FacetNormal.str]
    simp [List.mem_cons]
  have h6 := (h _ hmem _ _ _ rfl).2.2
  have : hasSixDecimals "0.0" = false := by decide
  rw [this] at h6
  exact Bool.false_ne_true h6

/-- C3 (amended): the x and y vertex components go through the 6-digit
format, but the z component is the literal `0.0` on the z = 0 side and the
6-digit-formatted span on the z = span side; in the end-to-end scenario the
first shell triangle's z components are the strings `0.0`, `0.0` and
`1.000000` (not `0.000000`). -/
theorem vertex_z_strings (airfoils : List AirfoilParameters) (span : ℝ) :
    (∀ l ∈ write_airfoils_to_stl airfoils span, ∀ a b c : String,
      l = SLine.vertexTag a b c → c = "0.0" ∨ c = fmt6 span) ∧
    fmt6 (1 : ℝ) = "1.000000" ∧
    ((∃ a b : String, (write_airfoils_to_stl [scenarioParams] 1)[3]?
        = some (SLine.vertexTag a b "0.0")) ∧
     (∃ a b : String, (write_airfoils_to_stl [scenarioParams] 1)[4]?
        = some (SLine.vertexTag a b "0.0")) ∧
     (∃ a b : String, (write_airfoils_to_stl [scenarioParams] 1)[5]?
        = some (SLine.vertexTag a b "1.000000"))) := by
  refine ⟨?_, fmt6_one, ?_⟩
  · intro l hl a b c hlc
    subst hlc
    rw [write_airfoils_to_stl, List.mem_append, List.mem_cons] at hl
    rcases hl with (hl | hl) | hl
    · exact absurd hl (by simp)
    · rw [List.mem_flatMap] at hl
      obtain ⟨q, hq, hl⟩ := hl
      rw [List.mem_flatMap] at hl
      obtain ⟨t, ht, hl⟩ := hl
      exact mem_triLines_z hl
    · exact absurd hl (by simp)
  · obtain ⟨rest, hdoc⟩ := scenario_doc_prefix
    rw [hdoc, fmt6_one]
    exact ⟨⟨fmt6 (xUpperRotF scenarioParams 0), fmt6 (yUpperRotF scenarioParams 0),
        by rfl⟩,
      ⟨fmt6 (xUpperRotF scenarioParams (0+1)), fmt6 (yUpperRotF scenarioParams (0+1)),
        by rfl⟩,
      ⟨fmt6 (xUpperRotF scenarioParams 0), fmt6 (yUpperRotF scenarioParams 0),
        by rfl⟩⟩

end Naca
